import Mathlib

/-!
Verification of the Acontext repository fragment: the task data-access layer
(`acontext_core/service/data/task.py`), the LLM task-SOP agent stub
(`acontext_core/llm/agent/task_sop.py`), and the sandbox backend-capability
registry and lifecycle model described by the specification (the concrete
`registry.py` / lifecycle modules are re-exported but absent from the visible
source, so those parts are modelled from the spec).

The relational store is embedded as a list of rows; SQL queries become list
filters, `ORDER BY ... ASC` becomes a sort, and the Python `Result` wrapper
becomes an inductive with `resolve`/`reject` constructors.  Stateful
operations take the store and return the updated store explicitly.
-/

namespace Acontext

/-- The `task_data` JSON dict column, embedded as an association list. -/
abbrev TaskData := List (String × String)

/-- A row of the `Task` ORM table: identity, owning session, ordering key,
JSON payload and status string (`acontext_core/schema/orm.Task` as used by
`service/data/task.py`).  UUID columns are embedded as `Nat`. -/
structure Task where
  id : Nat
  session_id : Nat
  task_order : Int
  task_data : TaskData
  task_status : String
deriving DecidableEq, Repr

/-- The service-layer result wrapper (`acontext_core/schema/result.Result`):
either resolved data or a rejection carrying an error message. -/
inductive Result (α : Type) where
  | resolve (data : α)
  | reject (errmsg : String)
deriving DecidableEq, Repr

/-- The comparison used by `ORDER BY Task.task_order ASC`. -/
def taskOrderLe (a b : Task) : Prop := a.task_order ≤ b.task_order

instance : DecidableRel taskOrderLe := fun a b =>
  inferInstanceAs (Decidable (a.task_order ≤ b.task_order))

instance : IsTotal Task taskOrderLe := ⟨fun a b => Int.le_total a.task_order b.task_order⟩

instance : IsTrans Task taskOrderLe := ⟨fun _ _ _ hab hbc => le_trans hab hbc⟩

/-- The WHERE clauses built by `fetch_current_tasks`: always filter by
`session_id`; additionally filter by `task_status` only when the `status`
argument is truthy in Python (`if status:`), i.e. not `None` and not the
empty string. -/
def currentTasksQuery (db : List Task) (session_id : Nat) (status : Option String) :
    List Task :=
  match status with
  | some s =>
      if s = "" then db.filter (fun t => t.session_id == session_id)
      else (db.filter (fun t => t.session_id == session_id)).filter
        (fun t => t.task_status == s)
  | none => db.filter (fun t => t.session_id == session_id)

/-- `fetch_current_tasks`: select the session's tasks, optionally filtered by
status, ordered by `task_order` ascending, wrapped in `Result.resolve`. -/
def fetch_current_tasks (db : List Task) (session_id : Nat) (status : Option String) :
    Result (List Task) :=
  Result.resolve (List.insertionSort taskOrderLe (currentTasksQuery db session_id status))

/-- The non-`None`-fields-only mutation performed by `update_task` on the
fetched row: each of `status`, `order`, `data` overwrites its column exactly
when the corresponding argument is not `None`. -/
def applyTaskUpdate (task : Task) (status : Option String) (order : Option Int)
    (data : Option TaskData) : Task :=
  { task with
    task_status := status.getD task.task_status
    task_order := order.getD task.task_order
    task_data := data.getD task.task_data }

/-- In-place mutation of the first row matching `task_id`, as the ORM session
sees it after `update_task` mutates the object returned by `.first()`. -/
def replaceFirstTask (db : List Task) (task_id : Nat) (updated : Task) : List Task :=
  match db with
  | [] => []
  | t :: rest =>
      if t.id = task_id then updated :: rest
      else t :: replaceFirstTask rest task_id updated

/-- `update_task`: fetch the task by id; reject with `"Task {task_id} not
found"` when absent; otherwise overwrite exactly the columns whose argument
is not `None` and resolve with the updated row.  Returns the result together
with the store as the session will commit it. -/
def update_task (db : List Task) (task_id : Nat) (status : Option String)
    (order : Option Int) (data : Option TaskData) : Result Task × List Task :=
  match db.find? (fun t => t.id == task_id) with
  | none => (Result.reject ("Task " ++ toString task_id ++ " not found"), db)
  | some task =>
      let updated := applyTaskUpdate task status order data
      (Result.resolve updated, replaceFirstTask db task_id updated)

/-- `delete_task`: `DELETE FROM task WHERE id == task_id`; always resolves
with `None` regardless of whether any row matched. -/
def delete_task (db : List Task) (task_id : Nat) : Result Unit × List Task :=
  (Result.resolve (), db.filter (fun t => !(t.id == task_id)))

/-- `insert_task`: add a new row with the given session, order, data and
status (default `"pending"` at the call sites), returning its id. -/
def insert_task (db : List Task) (new_id : Nat) (session_id : Nat) (order : Int)
    (data : TaskData) (status : String) : Result Nat × List Task :=
  let task : Task :=
    { id := new_id, session_id := session_id, task_order := order
      task_data := data, task_status := status }
  (Result.resolve new_id, db ++ [task])

/-- The task view passed to the SOP agent
(`acontext_core/schema/session/task.TaskSchema`); its content is opaque to
`sop_agent_curd`, which ignores it. -/
structure TaskSchema where
  id : Nat
  payload : TaskData
deriving DecidableEq, Repr

/-- `sop_agent_curd` (`acontext_core/llm/agent/task_sop.py`): the body is the
single statement `pass`, so the function touches nothing and returns `None`.
The store is threaded to make the absence of effects expressible. -/
def sop_agent_curd (db : List Task) (project_id : Nat) (space_id : Nat)
    (planning_task : TaskSchema) (current_task : TaskSchema)
    (max_iterations : Nat) : Option Unit × List Task :=
  (none, db)

/-! ### Sandbox backend registry and lifecycle

The runtime registry (`infra/sandbox/runtime/registry.py`) and the lifecycle
module (`infra/sandbox/lifecycle`) are re-exported by the visible
`__init__.py` files but their bodies are not part of the visible source, so
they are modelled from the specification. -/

/-- Modelled from the spec: the `Backend` discriminator
(`SandboxBackend`), a closed enumeration identifying which runtime
implementation manages a resource (containerized, process-isolated, remote);
the source's commented-out registration names `DOCKER`. -/
inductive SandboxBackend where
  | docker
  | localProcess
  | remote
deriving DecidableEq, Repr

/-- Modelled from the spec: the `Status` lifecycle enumeration
`Pending → Starting → Running → Stopping → Stopped`, with terminal `Failed`
reachable from any non-terminal state. -/
inductive SandboxStatus where
  | pending
  | starting
  | running
  | stopping
  | stopped
  | failed
deriving DecidableEq, Repr

/-- Modelled from the spec: an exposed-endpoint descriptor mapping an
internal port to an externally reachable URL. -/
structure ExposedUrl where
  port : Nat
  url : String
deriving DecidableEq, Repr

/-- Modelled from the spec: `SandboxInfo` — identity, declared backend,
current status, exposed-endpoint set and creation timestamp of a managed
resource. -/
structure SandboxInfo where
  id : Nat
  backend : SandboxBackend
  status : SandboxStatus
  exposed_urls : List ExposedUrl
  created_at : Nat
deriving DecidableEq, Repr

/-- Modelled from the spec: the polymorphic runtime capability handle a
factory constructs (`SandboxRuntime`); the tag distinguishes handles built
by different factories. -/
structure SandboxRuntime where
  backend : SandboxBackend
  tag : Nat
deriving DecidableEq, Repr

/-- Modelled from the spec: a factory producing a capability-set instance
for the resource it is resolved against. -/
abbrev RuntimeFactory := SandboxInfo → SandboxRuntime

/-- Modelled from the spec: the process-wide registry mapping each backend
discriminator to its registered factory, if any. -/
abbrev Registry := SandboxBackend → Option RuntimeFactory

/-- Modelled from the spec: the error taxonomy of the sandbox subsystem;
`UnregisteredBackendError` signals a backend with no registered factory. -/
inductive SandboxError where
  | UnregisteredBackendError (backend : SandboxBackend)
  | NotFoundError (id : Nat)
  | ProvisionError (msg : String)
deriving DecidableEq, Repr

/-- Modelled from the spec: `register_runtime_backend` associates a backend
discriminator with a factory, last-registration-wins; overwriting a prior
factory is explicit and emits a log warning (returned as the second
component). -/
def register_runtime_backend (reg : Registry) (backend : SandboxBackend)
    (factory : RuntimeFactory) : Registry × Option String :=
  ((fun b => if b = backend then some factory else reg b),
   if (reg backend).isSome then
     some ("overwriting registered runtime factory for backend " ++ reprStr backend)
   else none)

/-- Modelled from the spec: `get_runtime_for_sandbox` resolves the factory
registered for the resource's declared backend and constructs the runtime
handle; fails with `UnregisteredBackendError` when no factory is
registered. -/
def get_runtime_for_sandbox (reg : Registry) (info : SandboxInfo) :
    Except SandboxError SandboxRuntime :=
  match reg info.backend with
  | some factory => Except.ok (factory info)
  | none => Except.error (SandboxError.UnregisteredBackendError info.backend)

/-- The comparison used by the creation-time-ascending ordering of
`listResources`. -/
def createdLe (a b : SandboxInfo) : Prop := a.created_at ≤ b.created_at

instance : DecidableRel createdLe := fun a b =>
  inferInstanceAs (Decidable (a.created_at ≤ b.created_at))

instance : IsTotal SandboxInfo createdLe := ⟨fun a b => Nat.le_total a.created_at b.created_at⟩

instance : IsTrans SandboxInfo createdLe := ⟨fun _ _ _ hab hbc => Nat.le_trans hab hbc⟩

/-- Modelled from the spec: the unpaginated `listResources` read — all
stored resources ordered by creation time ascending. -/
def list_resources (store : List SandboxInfo) : List SandboxInfo :=
  List.insertionSort createdLe store

/-- Modelled from the spec: a `Page` — an ordered, size-bounded slice of
resources plus a continuation token. -/
structure SandboxPage where
  items : List SandboxInfo
  next_token : Option Nat
deriving DecidableEq, Repr

/-- Modelled from the spec: one page of the paginated `listResources`,
starting at continuation token `token` (an offset into the ordered listing)
and holding at most `page_size` items; the next token is present exactly
when further items remain. -/
def list_resources_page (store : List SandboxInfo) (page_size : Nat) (token : Nat) :
    SandboxPage :=
  let all := list_resources store
  { items := (all.drop token).take page_size
    next_token :=
      if token + page_size < all.length then some (token + page_size) else none }

/-- Modelled from the spec: concatenating the pages of `listResources` in
continuation-token order, starting from `token`, with enough `fuel` to
exhaust the listing. -/
def collect_pages (store : List SandboxInfo) (page_size : Nat) :
    Nat → Nat → List SandboxInfo
  | _, 0 => []
  | token, fuel + 1 =>
      let page := list_resources_page store page_size token
      match page.next_token with
      | none => page.items
      | some t => page.items ++ collect_pages store page_size t fuel

/-- Modelled from the spec: `exposedUrls` returns the resource's currently
recorded externally reachable endpoints. -/
def exposedUrls (info : SandboxInfo) : List ExposedUrl := info.exposed_urls

/-- Modelled from the spec: `createResource` provisions a record with
initial status `Pending` and no exposed endpoints. -/
def createResource (id : Nat) (backend : SandboxBackend) (created_at : Nat) :
    SandboxInfo :=
  { id := id, backend := backend, status := SandboxStatus.pending
    exposed_urls := [], created_at := created_at }

/-- Modelled from the spec: the lifecycle operations the service applies to
a resource record after the backend acts. -/
inductive LifecycleOp where
  | confirmRunning (urls : List ExposedUrl)
  | terminateResource
  | confirmStopped
  | markFailed
deriving DecidableEq, Repr

/-- Modelled from the spec: the state-machine step
`Pending/Starting -(confirm)-> Running -(terminate)-> Stopping -(confirm)->
Stopped`, with `Failed` reachable from any non-terminal state; endpoint
entries are recorded on entering `Running` and cleared on leaving it. -/
def applyLifecycle (op : LifecycleOp) (info : SandboxInfo) : SandboxInfo :=
  match op with
  | LifecycleOp.confirmRunning urls =>
      if info.status = SandboxStatus.pending ∨ info.status = SandboxStatus.starting then
        { info with status := SandboxStatus.running, exposed_urls := urls }
      else info
  | LifecycleOp.terminateResource =>
      if info.status = SandboxStatus.running then
        { info with status := SandboxStatus.stopping, exposed_urls := [] }
      else info
  | LifecycleOp.confirmStopped =>
      if info.status = SandboxStatus.stopping then
        { info with status := SandboxStatus.stopped }
      else info
  | LifecycleOp.markFailed =>
      if info.status = SandboxStatus.stopped ∨ info.status = SandboxStatus.failed then
        info
      else { info with status := SandboxStatus.failed, exposed_urls := [] }

/-- The resource states reachable through the lifecycle service: freshly
created records and everything obtained from them by lifecycle steps. -/
inductive ReachableSandbox : SandboxInfo → Prop where
  | created (id : Nat) (backend : SandboxBackend) (created_at : Nat) :
      ReachableSandbox (createResource id backend created_at)
  | step (op : LifecycleOp) (info : SandboxInfo) :
      ReachableSandbox info → ReachableSandbox (applyLifecycle op info)

/-! ### Theorems -/

/-- Claim C6: `sop_agent_curd` is an unimplemented stub — for every
combination of arguments it performs no operation on the store and returns
`None`. -/
theorem sop_agent_curd_is_stub (db : List Task) (project_id : Nat) (space_id : Nat)
    (planning_task : TaskSchema) (current_task : TaskSchema) (max_iterations : Nat) :
    sop_agent_curd db project_id space_id planning_task current_task max_iterations
      = (none, db) := rfl

/-- Claim C10: `fetch_current_tasks` guards the status filter by Python
truthiness, so the empty string behaves exactly like `None`: no task of the
session is filtered out. -/
theorem fetch_current_tasks_empty_status_eq_none (db : List Task) (session_id : Nat) :
    fetch_current_tasks db session_id (some "") =
      fetch_current_tasks db session_id none := by
  simp [fetch_current_tasks, currentTasksQuery]

/-- Claim C4: `fetch_current_tasks` is a pure read resolving with the
session's (optionally status-filtered) tasks ordered by `task_order`
ascending — a deterministic permutation of the query's row set. -/
theorem fetch_current_tasks_sorted_read (db : List Task) (session_id : Nat)
    (status : Option String) :
    ∃ l, fetch_current_tasks db session_id status = Result.resolve l ∧
      List.Sorted taskOrderLe l ∧ l.Perm (currentTasksQuery db session_id status) :=
  ⟨List.insertionSort taskOrderLe (currentTasksQuery db session_id status), rfl,
    List.sorted_insertionSort taskOrderLe (currentTasksQuery db session_id status),
    List.perm_insertionSort taskOrderLe (currentTasksQuery db session_id status)⟩

/-- Claim C3: `delete_task` is idempotent and tolerant of unknown ids — it
always resolves (never errors), a second delete of the same id leaves the
store exactly as after the first, and deleting an id with no matching row
leaves the store unchanged. -/
theorem delete_task_idempotent (db : List Task) (task_id : Nat) :
    (delete_task db task_id).1 = Result.resolve () ∧
    (delete_task (delete_task db task_id).2 task_id).1 = Result.resolve () ∧
    (delete_task (delete_task db task_id).2 task_id).2 = (delete_task db task_id).2 ∧
    ((∀ t ∈ db, t.id ≠ task_id) → (delete_task db task_id).2 = db) := by
  refine ⟨rfl, rfl, ?_, ?_⟩
  · show List.filter _ (List.filter _ db) = List.filter _ db
    apply List.filter_eq_self.mpr
    intro a ha
    exact (List.mem_filter.mp ha).2
  · intro h
    show List.filter _ db = db
    apply List.filter_eq_self.mpr
    intro a ha
    simpa using h a ha

/-- Witness for C3 at a concrete store: deleting an id that matches no row
leaves the store unchanged. -/
theorem delete_task_idempotent_witness :
    (delete_task [⟨1, 2, 0, [], "pending"⟩] 0).2 = [⟨1, 2, 0, [], "pending"⟩] :=
  (delete_task_idempotent [⟨1, 2, 0, [], "pending"⟩] 0).2.2.2 (by decide)

/-- Claim C9: when no task row has the requested id, `update_task` rejects
with the message `"Task {task_id} not found"` and leaves the store
unchanged. -/
theorem update_task_not_found (db : List Task) (task_id : Nat) (status : Option String)
    (order : Option Int) (data : Option TaskData)
    (h : ∀ t ∈ db, t.id ≠ task_id) :
    update_task db task_id status order data =
      (Result.reject ("Task " ++ toString task_id ++ " not found"), db) := by
  have hf : db.find? (fun t => t.id == task_id) = none := by
    apply List.find?_eq_none.mpr
    intro t ht
    simpa using h t ht
  unfold update_task
  rw [hf]

/-- Witness for C9 at a concrete store holding only a task with id 1. -/
theorem update_task_not_found_witness :
    update_task [⟨1, 2, 0, [], "pending"⟩] 0 none none none =
      (Result.reject ("Task " ++ toString (0 : Nat) ++ " not found"),
        [⟨1, 2, 0, [], "pending"⟩]) :=
  update_task_not_found [⟨1, 2, 0, [], "pending"⟩] 0 none none none (by decide)

/-- Claim C1: resolving a resource whose backend has no registered factory
fails with `UnregisteredBackendError` and never returns a runtime handle. -/
theorem get_runtime_for_sandbox_unregistered (reg : Registry) (info : SandboxInfo)
    (h : reg info.backend = none) :
    get_runtime_for_sandbox reg info =
        Except.error (SandboxError.UnregisteredBackendError info.backend) ∧
      ∀ rt : SandboxRuntime, get_runtime_for_sandbox reg info ≠ Except.ok rt := by
  have h1 : get_runtime_for_sandbox reg info =
      Except.error (SandboxError.UnregisteredBackendError info.backend) := by
    unfold get_runtime_for_sandbox
    rw [h]
  refine ⟨h1, fun rt hok => ?_⟩
  rw [h1] at hok
  exact Except.noConfusion hok

/-- Witness for C1: the empty registry rejects a `remote`-backed resource. -/
theorem get_runtime_for_sandbox_unregistered_witness :
    get_runtime_for_sandbox (fun _ => none)
        ⟨0, SandboxBackend.remote, SandboxStatus.pending, [], 0⟩ =
      Except.error (SandboxError.UnregisteredBackendError SandboxBackend.remote) :=
  (get_runtime_for_sandbox_unregistered (fun _ => none)
    ⟨0, SandboxBackend.remote, SandboxStatus.pending, [], 0⟩ rfl).1

/-- Claim C5: registering `f1` then `f2` under the same backend leaves the
registry mapping that backend to `f2` (last-registration-wins), a subsequent
resolve constructs the handle with `f2`, and the overwrite emits a log
message. -/
theorem register_runtime_backend_last_wins (reg : Registry) (b : SandboxBackend)
    (f1 f2 : RuntimeFactory) (info : SandboxInfo) (hb : info.backend = b) :
    (register_runtime_backend (register_runtime_backend reg b f1).1 b f2).1 b = some f2 ∧
    get_runtime_for_sandbox
        (register_runtime_backend (register_runtime_backend reg b f1).1 b f2).1 info =
      Except.ok (f2 info) ∧
    ((register_runtime_backend (register_runtime_backend reg b f1).1 b f2).2).isSome
      = true := by
  refine ⟨?_, ?_, ?_⟩
  · simp [register_runtime_backend]
  · unfold get_runtime_for_sandbox
    rw [hb]
    simp [register_runtime_backend]
  · simp [register_runtime_backend]

/-- Witness for C5: on the empty registry, registering two factories for
`docker` in sequence makes resolution use the second one. -/
theorem register_runtime_backend_last_wins_witness :
    get_runtime_for_sandbox
        (register_runtime_backend
          (register_runtime_backend (fun _ => none) SandboxBackend.docker
            (fun _ => ⟨SandboxBackend.docker, 1⟩)).1
          SandboxBackend.docker (fun _ => ⟨SandboxBackend.docker, 2⟩)).1
        ⟨0, SandboxBackend.docker, SandboxStatus.pending, [], 0⟩ =
      Except.ok ⟨SandboxBackend.docker, 2⟩ :=
  (register_runtime_backend_last_wins (fun _ => none) SandboxBackend.docker
    (fun _ => ⟨SandboxBackend.docker, 1⟩) (fun _ => ⟨SandboxBackend.docker, 2⟩)
    ⟨0, SandboxBackend.docker, SandboxStatus.pending, [], 0⟩ rfl).2.1

/-- Under id-uniqueness, `find?` by id locates exactly the member task
carrying that id. -/
lemma find?_id_eq_of_nodup (db : List Task) (task_id : Nat) (tsk : Task)
    (hnd : (db.map Task.id).Nodup) (hmem : tsk ∈ db) (hid : tsk.id = task_id) :
    db.find? (fun t => t.id == task_id) = some tsk := by
  induction db with
  | nil => cases hmem
  | cons t rest ih =>
    rw [List.map_cons, List.nodup_cons] at hnd
    rcases List.mem_cons.mp hmem with h | h
    · subst h
      exact List.find?_cons_of_pos rest (by simp [hid])
    · by_cases he : t.id = task_id
      · exact absurd (by rw [he, ← hid]; exact List.mem_map_of_mem Task.id h) hnd.1
      · rw [List.find?_cons_of_neg rest (by simp [he])]
        exact ih hnd.2 h

/-- Pointwise description of `replaceFirstTask` under id-uniqueness: the row
whose id matches is replaced, every other row is untouched. -/
lemma replaceFirstTask_getElem? (db : List Task) (task_id : Nat) (u : Task)
    (hnd : (db.map Task.id).Nodup) (i : Nat) :
    (replaceFirstTask db task_id u)[i]? =
      (db[i]?).map (fun t => if t.id = task_id then u else t) := by
  induction db generalizing i with
  | nil => simp [replaceFirstTask]
  | cons t rest ih =>
    rw [List.map_cons, List.nodup_cons] at hnd
    by_cases he : t.id = task_id
    · rw [replaceFirstTask, if_pos he]
      cases i with
      | zero => simp [he]
      | succ j =>
        simp only [List.getElem?_cons_succ]
        cases hr : rest[j]? with
        | none => rfl
        | some t2 =>
          have ht2 : t2.id ≠ task_id := fun hcon =>
            hnd.1 (by rw [he, ← hcon]; exact List.mem_map_of_mem Task.id (List.getElem?_mem hr))
          simp [ht2]
    · rw [replaceFirstTask, if_neg he]
      cases i with
      | zero => simp [he]
      | succ j =>
        simp only [List.getElem?_cons_succ]
        exact ih hnd.2 j

/-- Claim C2: for an existing task (under id-uniqueness of the store),
`update_task` resolves with the row updated by exactly the non-`None`
arguments; pointwise, the store keeps every row whose id differs and
rewrites only the matching row; and the update itself preserves `id` and
`session_id`, keeps every column whose argument is `None`, and overwrites
every column whose argument is `some`. -/
theorem update_task_updates_only_nonnull (db : List Task) (task_id : Nat)
    (status : Option String) (order : Option Int) (data : Option TaskData)
    (hnd : (db.map Task.id).Nodup) (tsk : Task) (hmem : tsk ∈ db)
    (hid : tsk.id = task_id) :
    (update_task db task_id status order data).1 =
        Result.resolve (applyTaskUpdate tsk status order data) ∧
    (∀ i : Nat, ((update_task db task_id status order data).2)[i]? =
        (db[i]?).map
          (fun t => if t.id = task_id then applyTaskUpdate t status order data else t)) ∧
    ∀ t : Task,
      (applyTaskUpdate t status order data).id = t.id ∧
      (applyTaskUpdate t status order data).session_id = t.session_id ∧
      (status = none → (applyTaskUpdate t status order data).task_status = t.task_status) ∧
      (order = none → (applyTaskUpdate t status order data).task_order = t.task_order) ∧
      (data = none → (applyTaskUpdate t status order data).task_data = t.task_data) ∧
      (∀ s, status = some s → (applyTaskUpdate t status order data).task_status = s) ∧
      (∀ o, order = some o → (applyTaskUpdate t status order data).task_order = o) ∧
      (∀ d, data = some d → (applyTaskUpdate t status order data).task_data = d) := by
  have hf := find?_id_eq_of_nodup db task_id tsk hnd hmem hid
  refine ⟨?_, ?_, ?_⟩
  · unfold update_task
    rw [hf]
  · intro i
    unfold update_task
    rw [hf]
    show (replaceFirstTask db task_id (applyTaskUpdate tsk status order data))[i]? = _
    rw [replaceFirstTask_getElem? db task_id _ hnd i]
    cases hr : db[i]? with
    | none => rfl
    | some t2 =>
      simp only [Option.map_some']
      by_cases he : t2.id = task_id
      · have ht : t2 = tsk :=
          List.inj_on_of_nodup_map hnd (List.getElem?_mem hr) hmem (by rw [he, hid])
        rw [if_pos he, if_pos he, ht]
      · rw [if_neg he, if_neg he]
  · intro t
    refine ⟨rfl, rfl, ?_, ?_, ?_, ?_, ?_, ?_⟩
    · intro h; subst h; rfl
    · intro h; subst h; rfl
    · intro h; subst h; rfl
    · intro s h; subst h; rfl
    · intro o h; subst h; rfl
    · intro d h; subst h; rfl

/-- Witness for C2 at a concrete one-row store: updating only the status
resolves with the row whose status alone was overwritten. -/
theorem update_task_updates_only_nonnull_witness :
    (update_task [⟨1, 2, 0, [], "pending"⟩] 1 (some "running") none none).1 =
      Result.resolve (applyTaskUpdate ⟨1, 2, 0, [], "pending"⟩ (some "running") none none) :=
  (update_task_updates_only_nonnull [⟨1, 2, 0, [], "pending"⟩] 1 (some "running")
    none none (by decide) ⟨1, 2, 0, [], "pending"⟩ (by decide) rfl).1

/-- With enough fuel, collecting pages from continuation token `token`
yields exactly the suffix of the ordered listing starting at `token`. -/
lemma collect_pages_eq_drop (store : List SandboxInfo) (page_size : Nat) :
    ∀ fuel token, (list_resources store).length ≤ token + fuel * page_size →
      collect_pages store page_size token fuel = (list_resources store).drop token := by
  intro fuel
  induction fuel with
  | zero =>
    intro token h
    rw [collect_pages]
    exact (List.drop_eq_nil_of_le (by simpa using h)).symm
  | succ fuel ih =>
    intro token h
    rw [collect_pages]
    simp only [list_resources_page]
    by_cases hc : token + page_size < (list_resources store).length
    · rw [if_pos hc]
      show ((list_resources store).drop token).take page_size ++
          collect_pages store page_size (token + page_size) fuel = _
      rw [ih (token + page_size) (by rw [Nat.succ_mul] at h; omega)]
      rw [← List.drop_drop, List.take_append_drop]
    · rw [if_neg hc]
      show ((list_resources store).drop token).take page_size = _
      apply List.take_of_length_le
      rw [List.length_drop]
      omega

/-- Claim C7: for every store and every positive page size, concatenating
all pages of the paginated listing in continuation-token order yields
exactly the unpaginated ordered listing — no duplicate, no omission. -/
theorem list_resources_pagination_complete (store : List SandboxInfo)
    (page_size : Nat) (h : 0 < page_size) :
    collect_pages store page_size 0 store.length = list_resources store := by
  have hlen : (list_resources store).length = store.length :=
    (List.perm_insertionSort createdLe store).length_eq
  have hfuel : (list_resources store).length ≤ 0 + store.length * page_size := by
    rw [hlen, Nat.zero_add]
    exact Nat.le_mul_of_pos_right store.length h
  simpa using collect_pages_eq_drop store page_size store.length 0 hfuel

/-- Witness for C7: a two-resource store paged with size 1. -/
theorem list_resources_pagination_complete_witness :
    collect_pages
        [⟨0, SandboxBackend.docker, SandboxStatus.pending, [], 5⟩,
         ⟨1, SandboxBackend.remote, SandboxStatus.running, [], 3⟩] 1 0 2 =
      list_resources
        [⟨0, SandboxBackend.docker, SandboxStatus.pending, [], 5⟩,
         ⟨1, SandboxBackend.remote, SandboxStatus.running, [], 3⟩] :=
  list_resources_pagination_complete
    [⟨0, SandboxBackend.docker, SandboxStatus.pending, [], 5⟩,
     ⟨1, SandboxBackend.remote, SandboxStatus.running, [], 3⟩] 1 (by decide)

/-- Claim C8: in every state reachable through the lifecycle service, the
exposed-endpoint set is empty whenever the resource is not `Running`; the
invariant holds at creation and is preserved by every lifecycle operation. -/
theorem exposed_urls_empty_unless_running (info : SandboxInfo)
    (h : ReachableSandbox info) (hs : info.status ≠ SandboxStatus.running) :
    exposedUrls info = [] := by
  revert hs
  induction h with
  | created id backend created_at =>
    intro hs
    rfl
  | step op info hr ih =>
    intro hs
    cases op with
    | confirmRunning urls =>
      simp only [applyLifecycle] at hs ⊢
      by_cases hc : info.status = SandboxStatus.pending ∨ info.status = SandboxStatus.starting
      · rw [if_pos hc] at hs
        exact absurd rfl hs
      · rw [if_neg hc] at hs ⊢
        exact ih hs
    | terminateResource =>
      simp only [applyLifecycle] at hs ⊢
      by_cases hc : info.status = SandboxStatus.running
      · rw [if_pos hc]
        rfl
      · rw [if_neg hc] at hs ⊢
        exact ih hs
    | confirmStopped =>
      simp only [applyLifecycle] at hs ⊢
      by_cases hc : info.status = SandboxStatus.stopping
      · rw [if_pos hc]
        exact ih (by rw [hc]; exact fun hcon => SandboxStatus.noConfusion hcon)
      · rw [if_neg hc] at hs ⊢
        exact ih hs
    | markFailed =>
      simp only [applyLifecycle] at hs ⊢
      by_cases hc : info.status = SandboxStatus.stopped ∨ info.status = SandboxStatus.failed
      · rw [if_pos hc] at hs ⊢
        exact ih hs
      · rw [if_neg hc]
        rfl

/-- Witness for C8: a freshly created then terminated-and-stopped resource
exposes no endpoint. -/
theorem exposed_urls_empty_unless_running_witness :
    exposedUrls
      (applyLifecycle LifecycleOp.terminateResource
        (applyLifecycle (LifecycleOp.confirmRunning [⟨80, "http://x"⟩])
          (createResource 7 SandboxBackend.docker 0))) = [] :=
  exposed_urls_empty_unless_running _
    (ReachableSandbox.step LifecycleOp.terminateResource _
      (ReachableSandbox.step (LifecycleOp.confirmRunning [⟨80, "http://x"⟩]) _
        (ReachableSandbox.created 7 SandboxBackend.docker 0)))
    (by decide)

end Acontext
